import Mathlib

/-!
Verification of the Automated-Intelligence-Threat-System signal-fusion core.

This file gives a shallow embedding, in Lean 4, of the risk-scoring core of the
repository:

* `src/models/anomaly_detector.py`  (namespace `AnomalyDet`)
* `src/models/explainability.py`    (namespace `Explain`)
* `src/models/gnn_model.py`         (namespace `GNN`)
* `src/risk/threat_engine.py`       (namespace `ThreatEngine`)
* `src/models/ensemble_predictor.py` (namespace `Ensemble`)

Pure numeric code is translated into functions over `ℚ` where the Python code
only adds, multiplies, divides and compares (so Lean proofs can compute), and
over `ℝ` where the Python code uses square roots, exponentials or logarithms.
Python floats are modelled as exact rationals/reals; where a division by zero
in IEEE arithmetic matters (the anomalous-feature comparison text), a dedicated
`FloatVal` type models the IEEE behaviour (`inf` / `-inf` / `nan`) explicitly.
Fallible Python code (exceptions raised by mismatched call arity or by calling
an unfitted scikit-learn transformer) is modelled with `Except String`.
-/

/-- Python max over a list with an explicit default for the empty list
(Python `max([])` raises; the default is only used where the surrounding code
guarantees nonemptiness, or where `numpy` would return an identity value). -/
def listMaxD {α : Type} [LinearOrder α] (d : α) : List α → α
  | [] => d
  | h :: t => t.foldl max h

/-- Python min over a list with an explicit default for the empty list. -/
def listMinD {α : Type} [LinearOrder α] (d : α) : List α → α
  | [] => d
  | h :: t => t.foldl min h

/-- Model of an IEEE-754 double as produced by numpy: either a finite value
(kept exact as a rational), a signed infinity, or NaN.  Used where the Python
code can divide by zero (numpy emits `inf`/`-inf`/`nan` instead of raising). -/
inductive FloatVal : Type
  | finite (q : ℚ)
  | inf
  | neginf
  | nan
deriving DecidableEq, Repr

/-- IEEE division of two finite values: numpy yields `inf`, `-inf` or `nan`
when the denominator is zero, depending on the sign of the numerator. -/
def floatDiv (a b : ℚ) : FloatVal :=
  if b = 0 then
    if 0 < a then FloatVal.inf
    else if a < 0 then FloatVal.neginf
    else FloatVal.nan
  else FloatVal.finite (a / b)

/-- Multiplication of a float value by the positive literal 100 (the
percentage scaling in the anomalous-feature comparison text): infinities and
NaN are preserved, finite values are scaled exactly. -/
def floatMul100 : FloatVal → FloatVal
  | FloatVal.finite q => FloatVal.finite (q * 100)
  | FloatVal.inf => FloatVal.inf
  | FloatVal.neginf => FloatVal.neginf
  | FloatVal.nan => FloatVal.nan

namespace AnomalyDet

/-- Population statistics for one feature.  The default table in
`_initialize_default_stats` only populates `mean`, `std` and `median`; those
are also the only keys read on the detection path, so the fit-time quartile
and min/max keys are not modelled. -/
structure FeatureStats where
  mean : ℚ
  std : ℚ
  median : ℚ
deriving DecidableEq, Repr

/-- State of an `AnomalyDetector` instance.  `scalerFitted` tracks whether the
scikit-learn `StandardScaler` (and `IsolationForest`) have been fit; calling
`transform` on an unfitted scaler raises `NotFittedError`.  The fitted
isolation-forest scoring function (`score_samples` after scaling) is external
scikit-learn code, modelled as an uninterpreted function field. -/
structure DetectorState where
  isFitted : Bool
  scalerFitted : Bool
  featureNames : List String
  featureStats : List (String × FeatureStats)
  scoreSamples : List ℚ → ℚ
  scalerTransform : List ℚ → List ℚ

/-- Feature-name list used by `fit` and `_initialize_default_stats`. -/
def defaultFeatureNames : List String :=
  ["eccentricity", "semi_major_axis", "inclination",
   "longitude_ascending", "argument_perihelion", "mean_anomaly",
   "perihelion_distance", "aphelion_distance", "orbital_period",
   "mean_motion", "absolute_magnitude", "diameter"]

/-- Default population-statistics table from `_initialize_default_stats`
(only eight of the twelve feature names have entries, exactly as in the
source). -/
def defaultStatsTable : List (String × FeatureStats) :=
  [("eccentricity", ⟨1/4, 3/20, 11/50⟩),
   ("semi_major_axis", ⟨3/2, 4/5, 13/10⟩),
   ("inclination", ⟨15, 12, 10⟩),
   ("perihelion_distance", ⟨4/5, 1/2, 7/10⟩),
   ("aphelion_distance", ⟨5/2, 3/2, 2⟩),
   ("orbital_period", ⟨600, 400, 500⟩),
   ("absolute_magnitude", ⟨20, 3, 20⟩),
   ("diameter", ⟨3/10, 2/5, 3/20⟩)]

/-- Embedding of `_initialize_default_stats`: installs the default names and
statistics table and — crucially — sets `is_fitted = True` without fitting the
scaler or the isolation forest. -/
def initializeDefaultStats (st : DetectorState) : DetectorState :=
  { st with
    featureNames := defaultFeatureNames
    featureStats := defaultStatsTable
    isFitted := true }

/-- A freshly constructed `AnomalyDetector()`: nothing fitted, no statistics.
The two function fields stand for the (unfitted) scikit-learn estimators. -/
def freshDetector (f : List ℚ → ℚ) (tr : List ℚ → List ℚ) : DetectorState :=
  { isFitted := false
    scalerFitted := false
    featureNames := []
    featureStats := []
    scoreSamples := f
    scalerTransform := tr }

/-- Embedding of `_isolation_forest_score`.  When `is_fitted` is true the code
calls `self.scaler.transform(features)`; on a scaler that was never fit,
scikit-learn raises `NotFittedError`, modelled as `Except.error`.  The fitted
path applies the affine map `1 - (score + 0.5)` and clips to `[0, 1]`. -/
def isolationForestScore (st : DetectorState) (features : List ℚ) :
    Except String ℚ :=
  if st.isFitted = false then Except.ok (1/2)
  else if st.scalerFitted = false then
    Except.error "NotFittedError: This StandardScaler instance is not fitted yet"
  else
    Except.ok (min 1 (max 0 (1 - (st.scoreSamples (st.scalerTransform features) + 1/2))))

/-- Embedding of `_statistical_outlier_score`: max of the per-feature absolute
z-scores over the features present in the statistics table (features with
non-positive std are skipped), divided by 4 and capped at 1; returns `0.5`
when no z-score was computed. -/
def statisticalOutlierScore (st : DetectorState) (features : List ℚ) : ℚ :=
  let zScores := (st.featureNames.enum.filterMap fun ni =>
    match (st.featureStats.find? fun p => p.1 = ni.2) with
    | none => none
    | some p =>
        if 0 < p.2.std then
          some (|((features.getD ni.1 0) - p.2.mean) / p.2.std|)
        else none)
  if zScores = [] then 1/2
  else min 1 (listMaxD 0 zScores / 4)

/-- Embedding of `_contextual_anomaly_score`: the rule table over feature
combinations.  Indices into the feature row follow the source exactly
(0 = eccentricity, 1 = semi-major axis, 2 = inclination,
6 = perihelion distance, 11 = diameter). -/
def contextualAnomalyScore (features : List ℚ) : ℚ :=
  let eccentricity := features.getD 0 0
  let inclination := features.getD 2 0
  let perihelionDist := features.getD 6 0
  let diameter := features.getD 11 0
  let scores : List ℚ :=
    (if 1 < diameter ∧ 1 < perihelionDist then [4/5] else []) ++
    (if 7/10 < eccentricity ∧ inclination < 5 then [9/10] else []) ++
    (if perihelionDist < 1/20 ∧ 60 < inclination then [17/20] else []) ++
    (if 9/10 < eccentricity then [7/10] else []) ++
    (if 80 < inclination then [3/4] else []) ++
    (if diameter < 1/10 ∧ perihelionDist < 1/100 then [3/5] else [])
  if scores = [] then 0 else listMaxD 0 scores

/-- One entry of the anomalous-feature listing built by
`_identify_anomalous_features`.  The percentage in the Python comparison
f-string is kept as its numeric value (`comparison : FloatVal`, an IEEE
float since the division is unguarded) together with the direction word;
the decimal rendering of the number is not modelled. -/
structure AnomalousFeature where
  feature : String
  value : ℚ
  zScore : ℚ
  direction : String
  populationMean : ℚ
  populationMedian : ℚ
  comparison : FloatVal
deriving DecidableEq, Repr

/-- Descending insertion by z-score, modelling
`anomalous.sort(key=lambda x: x['z_score'], reverse=True)`. -/
def insertByZDesc (e : AnomalousFeature) :
    List AnomalousFeature → List AnomalousFeature
  | [] => [e]
  | h :: t =>
      if h.zScore < e.zScore then e :: h :: t
      else h :: insertByZDesc e t

/-- Sort a listing by descending z-score. -/
def sortByZDesc (l : List AnomalousFeature) : List AnomalousFeature :=
  l.foldr insertByZDesc []

/-- Embedding of `_identify_anomalous_features`.  For each named feature with
an entry in the statistics table and positive std, compute the absolute
z-score; entries with `z > 2.5` are listed with a direction and a
percentage-of-mean comparison.  The comparison divides by the population mean
with no epsilon guard — `floatDiv` reproduces the IEEE `inf`/`nan` outcome
when the mean is zero. -/
def identifyAnomalousFeatures (st : DetectorState) (features : List ℚ) :
    List AnomalousFeature :=
  let anomalous := st.featureNames.enum.filterMap fun ni =>
    match (st.featureStats.find? fun p => p.1 = ni.2) with
    | none => none
    | some p =>
        let value := features.getD ni.1 0
        if 0 < p.2.std then
          let z := |(value - p.2.mean) / p.2.std|
          if 5/2 < z then
            if p.2.mean < value then
              some ⟨ni.2, value, z, "high", p.2.mean, p.2.median,
                    floatMul100 (floatDiv (value - p.2.mean) p.2.mean)⟩
            else
              some ⟨ni.2, value, z, "low", p.2.mean, p.2.median,
                    floatMul100 (floatDiv (p.2.mean - value) p.2.mean)⟩
          else none
        else none
  sortByZDesc anomalous

/-- Embedding of `_get_severity_level`. -/
def getSeverityLevel (score : ℚ) : String :=
  if 4/5 < score then "EXTREME"
  else if 3/5 < score then "HIGH"
  else if 2/5 < score then "MODERATE"
  else if 1/5 < score then "LOW"
  else "NORMAL"

/-- Substring test modelling the Python `in` operator on strings: the needle
occurs in the haystack iff splitting on it yields more than one piece. -/
def strContains (hay needle : String) : Bool :=
  2 ≤ (hay.splitOn needle).length

/-- Embedding of `_generate_recommendations`. -/
def generateRecommendations (score : ℚ) (anomalous : List AnomalousFeature) :
    List String :=
  let recs : List String :=
    (if 7/10 < score then
      ["HIGH PRIORITY: Verify observational data for errors",
       "Request additional observations from multiple observatories",
       "Update orbital elements with latest astrometry"] else []) ++
    (if 1/2 < score then
      ["Investigate potential data quality issues",
       "Check for recent close encounters that may explain unusual orbit",
       "Consider manual review by orbital dynamics expert"] else []) ++
    ((anomalous.take 2).flatMap fun f =>
      (if strContains f.feature "eccentricity" ∧ f.direction = "high" then
        ["High eccentricity: Monitor for potential perturbations from Jupiter"]
       else []) ++
      (if strContains f.feature "inclination" ∧ f.direction = "high" then
        ["High inclination: Investigate possible cometary origin"] else []) ++
      (if strContains f.feature "perihelion" ∧ f.direction = "low" then
        ["Very close perihelion: Priority for close approach monitoring"]
       else []))
  if recs = [] then ["Standard monitoring protocol is sufficient"] else recs

/-- Embedding of `_generate_explanation`.  The concatenated sentence fragments
are modelled; the decimal rendering of the interpolated percentage is elided
(the numeric value itself is carried in the `comparison` field of each
`AnomalousFeature`). -/
def generateExplanation (score : ℚ) (anomalous : List AnomalousFeature)
    (features : List ℚ) : String :=
  let intro :=
    if score < 3/10 then
      "This asteroid has typical characteristics for a Near-Earth Object. "
    else if score < 3/5 then
      "This asteroid shows some unusual characteristics. "
    else
      "This asteroid has highly unusual characteristics compared to the NEO population. "
  let top :=
    match anomalous with
    | [] => ""
    | e :: rest =>
        "Most notably, its " ++ e.feature ++ " is " ++ e.direction ++ ". " ++
        (if rest = [] then ""
         else "Additionally, " ++
           String.intercalate ", " ((rest.take 2).map (·.feature)) ++
           " are also outside typical ranges. ")
  let ecc := features.getD 0 0
  let inc := features.getD 2 0
  intro ++ top ++
    (if 7/10 < ecc then
      "The highly elliptical orbit suggests potential long-period variations. "
     else "") ++
    (if 60 < inc then
      "The steep inclination is rare among NEOs and may indicate a cometary origin. "
     else "")

/-- Result record returned by `detect_anomaly`. -/
structure AnomalyResult where
  isAnomalous : Bool
  anomalyScore : ℚ
  severity : String
  isolationScore : ℚ
  statisticalScore : ℚ
  contextualScore : ℚ
  anomalousFeatures : List AnomalousFeature
  explanation : String
  recommendations : List String

/-- Embedding of `detect_anomaly`.  When the detector was never fit, the
default statistics table is installed first (which sets `is_fitted = True`);
the isolation-forest sub-score is then computed, which can raise inside
scikit-learn, modelled by the `Except` monad.  The three sub-scores are
combined with weights 0.4 / 0.35 / 0.25. -/
def detectAnomaly (st : DetectorState) (features : List ℚ) :
    Except String AnomalyResult :=
  let st1 := if st.isFitted = false then initializeDefaultStats st else st
  match isolationForestScore st1 features with
  | Except.error e => Except.error e
  | Except.ok isolationScore =>
      let statisticalScore := statisticalOutlierScore st1 features
      let contextualScore := contextualAnomalyScore features
      let combined := isolationScore * (2/5) + statisticalScore * (7/20) +
        contextualScore * (1/4)
      let anomalous := identifyAnomalousFeatures st1 features
      Except.ok
        { isAnomalous := decide (3/5 < combined)
          anomalyScore := combined
          severity := getSeverityLevel combined
          isolationScore := isolationScore
          statisticalScore := statisticalScore
          contextualScore := contextualScore
          anomalousFeatures := anomalous
          explanation := generateExplanation combined anomalous features
          recommendations := generateRecommendations combined anomalous }

end AnomalyDet

namespace Explain

/-- Feature-name list in `compute_feature_importance` (twelve names; the
orbital input may be wider, in which case Python `zip` silently truncates). -/
def featureNames : List String :=
  ["eccentricity", "semi_major_axis", "inclination",
   "longitude_ascending", "argument_perihelion", "mean_anomaly",
   "perihelion_distance", "aphelion_distance", "orbital_period",
   "mean_motion", "absolute_magnitude", "diameter"]

/-- Embedding of the attribution post-processing in
`compute_feature_importance`: gradient magnitudes are taken per input feature
of the target node (`torch.abs(x.grad[target_node])`), zipped with the feature
names (truncating like Python `zip`), and normalized to percentages only when
the total is strictly positive. -/
def featureImportance (grad : List ℚ) : List (String × ℚ) :=
  let importance := grad.map (fun g => |g|)
  let dict := featureNames.zip importance
  let total := (dict.map Prod.snd).sum
  if 0 < total then dict.map (fun p => (p.1, p.2 / total * 100)) else dict

/-- Total unnormalized importance (`total = sum(importance_dict.values())`). -/
def totalImportance (grad : List ℚ) : ℚ :=
  ((featureNames.zip (grad.map (fun g => |g|))).map Prod.snd).sum

end Explain

namespace GNN

noncomputable section

/-- ReLU activation (`F.relu`). -/
def relu (x : ℝ) : ℝ := max x 0

/-- ELU activation with the default alpha of 1 (`F.elu`). -/
def elu (x : ℝ) : ℝ := if 0 < x then x else Real.exp x - 1

/-- Softplus activation (`F.softplus`): `log(1 + exp x)`. -/
def softplus (x : ℝ) : ℝ := Real.log (1 + Real.exp x)

/-- Dot product of two rows (truncating zip, matching well-shaped tensors). -/
def dot (u v : List ℝ) : ℝ := ((u.zip v).map fun p => p.1 * p.2).sum

/-- Dense affine layer (`nn.Linear`): one output per weight row, plus bias. -/
def linear (w : List (List ℝ)) (b : List ℝ) (v : List ℝ) : List ℝ :=
  ((w.zip b).map fun p => dot p.1 v + p.2)

/-- Elementwise sum of two feature matrices (the residual `h1 + h0`). -/
def matAdd (a b : List (List ℝ)) : List (List ℝ) :=
  (a.zip b).map fun p => (p.1.zip p.2).map fun q => q.1 + q.2

/-- Parameters and library sub-modules of `ATISGNN`.  The dense heads
(`input_proj`, `mu_head`, `sigma_head`, the two linear layers of `pha_head`)
are modelled concretely as weight/bias pairs; the `GATConv` attention layers
and the `LayerNorm` layers are external torch-geometric/torch code, modelled
as uninterpreted node-set transformers (the claims proved below hold for
every behaviour of those layers). -/
structure ATISGNN where
  inputProjW : List (List ℝ)
  inputProjB : List ℝ
  gat1 : List (List ℝ) → List (ℕ × ℕ) → List (List ℝ)
  norm1 : List (List ℝ) → List (List ℝ)
  gat2 : List (List ℝ) → List (ℕ × ℕ) → List (List ℝ)
  norm2 : List (List ℝ) → List (List ℝ)
  muW : List (List ℝ)
  muB : List ℝ
  sigmaW : List (List ℝ)
  sigmaB : List ℝ
  phaW1 : List (List ℝ)
  phaB1 : List ℝ
  phaW2 : List (List ℝ)
  phaB2 : List ℝ

/-- Embedding of `ATISGNN.forward`: initial projection with ReLU, first
attention block with residual connection, layernorm and ELU, second attention
block with layernorm and ELU, then the three heads.  Dropout inside
`pha_head` is the identity in eval mode (all call sites run under
`model.eval()`).  Returns `(mu, sigma, pha_logit)`; sigma passes through
softplus componentwise. -/
def forward (m : ATISGNN) (x : List (List ℝ)) (edgeIndex : List (ℕ × ℕ)) :
    List (List ℝ) × List (List ℝ) × List (List ℝ) :=
  let h0 := (x.map (linear m.inputProjW m.inputProjB)).map (List.map relu)
  let h1 := ((m.norm1 (matAdd (m.gat1 h0 edgeIndex) h0)).map (List.map elu))
  let h2 := ((m.norm2 (m.gat2 h1 edgeIndex)).map (List.map elu))
  let mu := h2.map (linear m.muW m.muB)
  let sigma := h2.map fun r => (linear m.sigmaW m.sigmaB r).map softplus
  let pha := mu.map fun r =>
    linear m.phaW2 m.phaB2 ((linear m.phaW1 m.phaB1 r).map relu)
  (mu, sigma, pha)

/-- Sigma output of the forward pass (second component of the triple). -/
def forwardSigma (m : ATISGNN) (x : List (List ℝ))
    (edgeIndex : List (ℕ × ℕ)) : List (List ℝ) :=
  (forward m x edgeIndex).2.1

end

end GNN

namespace ThreatEngine

noncomputable section

/-- Epsilon guard in the min-max `normalize` helper of
`compute_threat_scores` (`1e-8`). -/
def eps8 : ℝ := 1 / 100000000

/-- Embedding of the inner `normalize` helper of `compute_threat_scores`:
min-max normalization with a `1e-8` guard in the denominator. -/
def normalize (xs : List ℝ) : List ℝ :=
  xs.map fun v => (v - listMinD 0 xs) / (listMaxD 0 xs - listMinD 0 xs + eps8)

/-- L2 norm of one embedding row (`torch.norm(mu, dim=1)` per node). -/
def l2norm (row : List ℝ) : ℝ := Real.sqrt ((row.map fun v => v * v).sum)

/-- Row mean (`sigma.mean(dim=1)` per node). -/
def listMean (l : List ℝ) : ℝ := l.sum / l.length

/-- Column extraction from the graph feature matrix (`graph.x[:, j]`). -/
def col (j : ℕ) (gX : List (List ℝ)) : List ℝ := gX.map fun row => row.getD j 0

/-- Embedding of the proximity-risk branch of `compute_threat_scores`:
when raw MOID values (AU) are supplied, normalize `1 / (|moid| + 1e-4)`;
otherwise fall back to the StandardScaler-normalised graph feature column 10
with a `1e-3` guard. -/
def proximityRisk (gX : List (List ℝ)) (rawMoid : Option (List ℝ)) : List ℝ :=
  match rawMoid with
  | some m => normalize (m.map fun v => 1 / (|v| + 1 / 10000))
  | none => normalize ((col 10 gX).map fun v => 1 / (|v| + 1 / 1000))

/-- Modelled from the spec (section 4.2, step 3), for comparison with the
source definition `proximityRisk`: the proximity-risk term as the spec words
it — the min-max normalization of `1 / (|proximity_raw| + eps)` computed from
the physical (unscaled) miss distance. -/
def proximityRiskSpec (moidAU : List ℝ) : List ℝ :=
  normalize (moidAU.map fun v => 1 / (|v| + 1 / 10000))

/-- Embedding of the energy-proxy branch (negated absolute magnitude,
normalized), with the scaled-column fallback. -/
def energyProxy (gX : List (List ℝ)) (rawH : Option (List ℝ)) : List ℝ :=
  match rawH with
  | some h => normalize (h.map fun v => -v)
  | none => normalize ((col 0 gX).map fun v => -v)

/-- Pre-renormalization combined score of `compute_threat_scores`: the
weighted sum `0.35 * latent + 0.25 * uncertainty + 0.25 * proximity +
0.15 * energy`, elementwise over the node set. -/
def combinedScores (mu sigma : List (List ℝ)) (gX : List (List ℝ))
    (rawMoid rawH : Option (List ℝ)) : List ℝ :=
  let latentRisk := normalize (mu.map l2norm)
  let uncertainty := normalize (sigma.map listMean)
  let proximity := proximityRisk gX rawMoid
  let energy := energyProxy gX rawH
  List.zipWith (fun p q => p + q)
    (List.zipWith (fun x y => (35 / 100) * x + (25 / 100) * y)
      latentRisk uncertainty)
    (List.zipWith (fun x y => (25 / 100) * x + (15 / 100) * y)
      proximity energy)

/-- Embedding of `compute_threat_scores`: the combined scores are
re-normalized with the same min-max helper before being returned. -/
def computeThreatScores (mu sigma : List (List ℝ)) (gX : List (List ℝ))
    (rawMoid rawH : Option (List ℝ)) : List ℝ :=
  normalize (combinedScores mu sigma gX rawMoid rawH)

end

end ThreatEngine

namespace Ensemble

/-- Graph snapshot handed to `EnsemblePredictor` (a torch-geometric `Data`
object with node features, edge index and edge attributes). -/
structure GraphData where
  x : List (List ℝ)
  edgeIndex : List (ℕ × ℕ)
  edgeAttr : List ℝ

/-- Number of tensor arguments accepted by `ATISGNN.forward`
(`forward(self, x, edge_index)`). -/
def forwardTensorParams : ℕ := 2

/-- Number of tensor arguments passed by `EnsemblePredictor.predict_gnn`
(`self.gnn_model(x, edge_index, edge_attr)`). -/
def predictGnnCallArgs : ℕ := 3

/-- Python tuple indexing on the `(mu, sigma, pha_logit)` triple returned by
the forward pass (`output[target_node]`): indices 0..2 select a component,
anything larger raises `IndexError`. -/
def tupleGet
    (out : List (List ℝ) × List (List ℝ) × List (List ℝ)) (i : ℕ) :
    Except String (List (List ℝ)) :=
  match i with
  | 0 => Except.ok out.1
  | 1 => Except.ok out.2.1
  | 2 => Except.ok out.2.2
  | _ => Except.error "IndexError: tuple index out of range"

/-- Python `.item()` on a tensor: succeeds only on a one-element tensor. -/
def tensorItem (t : List (List ℝ)) : Except String ℝ :=
  match t with
  | [[v]] => Except.ok v
  | _ => Except.error "RuntimeError: only one element tensors can be converted to Python scalars"

/-- Embedding of `EnsemblePredictor.predict_gnn`.  The call site passes three
tensor arguments to a forward method whose signature binds two, so the Python
call protocol raises `TypeError` before the network runs; the body after the
call (tuple indexing and `.item()`) is modelled for completeness. -/
noncomputable def predictGnn (m : GNN.ATISGNN) (g : GraphData)
    (targetNode : ℕ) : Except String ℝ :=
  if predictGnnCallArgs = forwardTensorParams then
    match tupleGet (GNN.forward m g.x g.edgeIndex) targetNode with
    | Except.error e => Except.error e
    | Except.ok t => tensorItem t
  else
    Except.error "TypeError: forward() takes 3 positional arguments but 4 were given"

/-- Embedding of `EnsemblePredictor.predict_random_forest`: additive band
contributions from perihelion distance, diameter, eccentricity and
inclination, capped at 1. -/
noncomputable def predictRandomForest (features : List ℝ) : ℝ :=
  let eccentricity := features.getD 0 0
  let inclination := features.getD 2 0
  let perihelionDist := features.getD 6 0
  let diameter := features.getD 11 0
  let periBand : ℝ :=
    if perihelionDist < 5 / 100 then 40 / 100
    else if perihelionDist < 10 / 100 then 30 / 100
    else if perihelionDist < 20 / 100 then 15 / 100
    else 0
  let sizeBand : ℝ :=
    if 1 < diameter then 30 / 100
    else if 5 / 10 < diameter then 20 / 100
    else if 14 / 100 < diameter then 10 / 100
    else 0
  let eccBand : ℝ :=
    if 5 / 10 < eccentricity then 15 / 100
    else if 3 / 10 < eccentricity then 10 / 100
    else 0
  let incBand : ℝ :=
    if inclination < 5 then 15 / 100
    else if inclination < 15 then 8 / 100
    else 0
  min 1 (periBand + sizeBand + eccBand + incBand)

/-- Embedding of `EnsemblePredictor.predict_xgboost`: rough feature scaling
followed by four boosted adjustments, clipped to `[0, 1]`. -/
noncomputable def predictXgboost (features : List ℝ) : ℝ :=
  let n0 := min 1 (features.getD 0 0 / 1)
  let n2 := min 1 (features.getD 2 0 / 90)
  let n6 := 1 - min 1 (features.getD 6 0 / 2)
  let n11 := min 1 (features.getD 11 0 / 2)
  let base : ℝ := 5 / 10
  let base := if 7 / 10 < n6 then base + (15 / 100) * (1 + n11 * (5 / 10))
    else base - 10 / 100
  let base := if 3 / 10 < n11 then base + (12 / 100) * (1 + n0 * (3 / 10))
    else base - 5 / 100
  let stability := (n0 + n2 / 90) / 2
  let base := if stability < 3 / 10 then base - 8 / 100 else base + 10 / 100
  let combinedRisk := (n6 + n11 + n0) / 3
  let base := base + (15 / 100) * combinedRisk
  max 0 (min 1 base)

/-- Embedding of `EnsemblePredictor.predict_statistical`: the Torino-scale
approximation from diameter/perihelion bands, scaled by an
eccentricity-driven uncertainty factor and capped at 1. -/
noncomputable def predictStatistical (features : List ℝ) : ℝ :=
  let perihelionDist := features.getD 6 0
  let diameter := features.getD 11 0
  let eccentricity := features.getD 0 0
  let torino : ℝ :=
    if 1 < diameter then
      (if perihelionDist < 2 / 1000 then 10
       else if perihelionDist < 1 / 100 then 8
       else if perihelionDist < 5 / 100 then 5
       else 0)
    else if 5 / 10 < diameter then
      (if perihelionDist < 1 / 100 then 7
       else if perihelionDist < 5 / 100 then 4
       else 0)
    else if 14 / 100 < diameter then
      (if perihelionDist < 5 / 100 then 3 else 0)
    else 0
  let threatScore := torino / 10
  let uncertaintyFactor := 1 + eccentricity * (2 / 10)
  min 1 (threatScore * uncertaintyFactor)

/-- The four sub-model scores of one ensemble query. -/
structure Predictions where
  gnn : ℝ
  randomForest : ℝ
  xgboost : ℝ
  statistical : ℝ

/-- Sub-model scores in dict order. -/
def predList (p : Predictions) : List ℝ :=
  [p.gnn, p.randomForest, p.xgboost, p.statistical]

/-- Weighted ensemble score with the fixed weights 0.50 / 0.20 / 0.20 / 0.10. -/
noncomputable def ensembleScore (p : Predictions) : ℝ :=
  p.gnn * (50 / 100) + p.randomForest * (20 / 100) +
    p.xgboost * (20 / 100) + p.statistical * (10 / 100)

/-- Population standard deviation (`np.std`). -/
noncomputable def pstd (l : List ℝ) : ℝ :=
  Real.sqrt (((l.map fun x => (x - ThreatEngine.listMean l) ^ 2).sum) / l.length)

/-- Agreement: `1 - np.std(pred_values)`. -/
noncomputable def agreement (p : Predictions) : ℝ := 1 - pstd (predList p)

/-- Embedding of `_calculate_confidence`: `0.6 * agreement` plus `0.4` times
twice the distance of the (recomputed) ensemble score from 0.5, capped at 1. -/
noncomputable def calculateConfidence (p : Predictions) (ag : ℝ) : ℝ :=
  min 1 (ag * (6 / 10) + |ensembleScore p - 5 / 10| * 2 * (4 / 10))

/-- Embedding of `_identify_outliers`: sub-models whose score differs from
the ensemble score by more than 0.2. -/
noncomputable def identifyOutliers (p : Predictions) (es : ℝ) : List String :=
  (([("gnn", p.gnn), ("random_forest", p.randomForest),
     ("xgboost", p.xgboost), ("statistical", p.statistical)].filter
      fun q => decide (2 / 10 < |q.2 - es|)).map Prod.fst)

/-- Embedding of `_generate_recommendation`.  The interpolated percentage
rendering of the score is elided; all sentence fragments and threshold
branches are modelled. -/
noncomputable def generateRecommendation (es conf ag : ℝ) : String :=
  (if 7 / 10 < es then "HIGH" else if 4 / 10 < es then "MEDIUM" else "LOW") ++
  " THREAT. " ++
  (if 8 / 10 < conf then "High confidence prediction - models agree. "
   else if 5 / 10 < conf then "Moderate confidence - some model disagreement. "
   else "Low confidence - significant model disagreement. Further analysis recommended. ") ++
  (if ag < 6 / 10 then
    "WARNING: Models show significant divergence. Manual review suggested."
   else "") ++
  (if 7 / 10 < es then " PRIORITY MONITORING REQUIRED."
   else if 4 / 10 < es then " Continue regular monitoring."
   else " Standard monitoring protocol.")

/-- Result record of `predict_ensemble`. -/
structure EnsemblePrediction where
  ensembleScore : ℝ
  individual : Predictions
  agreement : ℝ
  confidence : ℝ
  outlierModels : List String
  recommendation : String

/-- Embedding of `EnsemblePredictor.predict_ensemble`: the GNN sub-score is
computed first (dict literals evaluate in order), then the three heuristics,
then the weighted combination, agreement, confidence, outliers and the
recommendation.  An exception from `predict_gnn` propagates — there is no
try/except around it. -/
noncomputable def predictEnsemble (m : GNN.ATISGNN) (g : GraphData)
    (targetNode : ℕ) (features : List ℝ) : Except String EnsemblePrediction :=
  match predictGnn m g targetNode with
  | Except.error e => Except.error e
  | Except.ok gnnScore =>
      let p : Predictions :=
        { gnn := gnnScore
          randomForest := predictRandomForest features
          xgboost := predictXgboost features
          statistical := predictStatistical features }
      let es := ensembleScore p
      let ag := agreement p
      let conf := calculateConfidence p ag
      Except.ok
        { ensembleScore := es
          individual := p
          agreement := ag
          confidence := conf
          outlierModels := identifyOutliers p es
          recommendation := generateRecommendation es conf ag }

end Ensemble

/-- The four sub-model scores all equal to exactly 0.5 (end-to-end
scenario C of the spec). -/
noncomputable def allHalfPredictions : Ensemble.Predictions :=
  { gnn := 1 / 2, randomForest := 1 / 2, xgboost := 1 / 2, statistical := 1 / 2 }

/-- Feature vector of end-to-end scenario B: eccentricity 0.95, inclination
2 degrees, otherwise typical values (perihelion 0.8 AU, diameter 0.3 km). -/
def scenarioBFeatures : List ℚ :=
  [19/20, 3/2, 2, 0, 0, 0, 4/5, 5/2, 600, 0, 20, 3/10]

/-- Detector state fitted over a population whose statistics table carries a
single named feature (the function fields are irrelevant to the
anomalous-feature listing). -/
def singleStatState (name : String) (fs : AnomalyDet.FeatureStats) :
    AnomalyDet.DetectorState :=
  { isFitted := true
    scalerFitted := true
    featureNames := [name]
    featureStats := [(name, fs)]
    scoreSamples := fun _ => 0
    scalerTransform := fun l => l }

/-- Feature vector for end-to-end scenario A: perihelion distance `q` at
index 6, all other features identical across the three objects
(eccentricity 0, inclination 10 degrees, diameter 0.3 km). -/
noncomputable def scenarioAFeatures (q : ℝ) : List ℝ :=
  [0, 3/2, 10, 0, 0, 0, q, 0, 0, 0, 20, 3/10]

/-- Concrete standardized graph feature matrix for the C5 counterexample:
two nodes whose StandardScaler-normalised MOID column (index 10) holds 0 and
1. -/
noncomputable def cexGraphX : List (List ℝ) :=
  [[0, 0, 0, 0, 0, 0, 0, 0, 0, 0, 0], [0, 0, 0, 0, 0, 0, 0, 0, 0, 0, 1]]

/-- Physical MOID values (AU) of the same two nodes. -/
noncomputable def cexMoid : List ℝ := [1/10, 2/10]

theorem foldl_max_le {α : Type} [LinearOrder α] {b : α} :
    ∀ (t : List α) (a : α), a ≤ b → (∀ x ∈ t, x ≤ b) → t.foldl max a ≤ b := by
  intro t
  induction t with
  | nil => intro a ha _; simpa using ha
  | cons h t ih =>
      intro a ha hmem
      simp only [List.foldl_cons]
      exact ih (max a h) (max_le ha (hmem h (by simp)))
        (fun x hx => hmem x (by simp [hx]))

theorem le_foldl_max_init {α : Type} [LinearOrder α] :
    ∀ (t : List α) (a : α), a ≤ t.foldl max a := by
  intro t
  induction t with
  | nil => intro a; simp
  | cons h t ih =>
      intro a
      simp only [List.foldl_cons]
      exact le_trans (le_max_left a h) (ih (max a h))

theorem le_foldl_max_mem {α : Type} [LinearOrder α] :
    ∀ (t : List α) (a x : α), x ∈ t → x ≤ t.foldl max a := by
  intro t
  induction t with
  | nil => intro a x hx; simp at hx
  | cons h t ih =>
      intro a x hx
      rcases List.mem_cons.mp hx with rfl | hx
      · exact le_trans (le_max_right a x) (le_foldl_max_init t (max a x))
      · exact ih (max a h) x hx

/-- Every member of a list is bounded by `listMaxD`. -/
theorem le_listMaxD {α : Type} [LinearOrder α] {d x : α} {l : List α}
    (hx : x ∈ l) : x ≤ listMaxD d l := by
  cases l with
  | nil => simp at hx
  | cons h t =>
      rcases List.mem_cons.mp hx with rfl | hx
      · exact le_foldl_max_init t x
      · exact le_foldl_max_mem t h x hx

/-- The `listMaxD` of a list is at most any common upper bound (nonempty case). -/
theorem listMaxD_le {α : Type} [LinearOrder α] {d b : α} {h : α} {t : List α}
    (hh : h ≤ b) (ht : ∀ x ∈ t, x ≤ b) : listMaxD d (h :: t) ≤ b :=
  foldl_max_le t h hh ht

theorem foldl_min_ge {α : Type} [LinearOrder α] {b : α} :
    ∀ (t : List α) (a : α), b ≤ a → (∀ x ∈ t, b ≤ x) → b ≤ t.foldl min a := by
  intro t
  induction t with
  | nil => intro a ha _; simpa using ha
  | cons h t ih =>
      intro a ha hmem
      simp only [List.foldl_cons]
      exact ih (min a h) (le_min ha (hmem h (by simp)))
        (fun x hx => hmem x (by simp [hx]))

theorem foldl_min_le_init {α : Type} [LinearOrder α] :
    ∀ (t : List α) (a : α), t.foldl min a ≤ a := by
  intro t
  induction t with
  | nil => intro a; simp
  | cons h t ih =>
      intro a
      simp only [List.foldl_cons]
      exact le_trans (ih (min a h)) (min_le_left a h)

theorem foldl_min_le_mem {α : Type} [LinearOrder α] :
    ∀ (t : List α) (a x : α), x ∈ t → t.foldl min a ≤ x := by
  intro t
  induction t with
  | nil => intro a x hx; simp at hx
  | cons h t ih =>
      intro a x hx
      rcases List.mem_cons.mp hx with rfl | hx
      · exact le_trans (foldl_min_le_init t (min a x)) (min_le_right a x)
      · exact ih (min a h) x hx

/-- The `listMinD` of a list bounds every member from below. -/
theorem listMinD_le {α : Type} [LinearOrder α] {d x : α} {l : List α}
    (hx : x ∈ l) : listMinD d l ≤ x := by
  cases l with
  | nil => simp at hx
  | cons h t =>
      rcases List.mem_cons.mp hx with rfl | hx
      · exact foldl_min_le_init t x
      · exact foldl_min_le_mem t h x hx

theorem getD_getD_nonneg {L : List (List ℝ)} (i j : ℕ)
    (h : ∀ r ∈ L, ∀ v ∈ r, 0 ≤ v) : 0 ≤ (L.getD i []).getD j 0 := by
  rcases lt_or_ge i L.length with hi | hi
  · have hrmem : L.getD i [] ∈ L := by
      rw [List.getD_eq_getElem _ _ hi]
      exact List.getElem_mem hi
    rcases lt_or_ge j (L.getD i []).length with hj | hj
    · have : (L.getD i []).getD j 0 ∈ L.getD i [] := by
        rw [List.getD_eq_getElem _ _ hj]
        exact List.getElem_mem hj
      exact h _ hrmem _ this
    · rw [List.getD_eq_default _ _ hj]
  · rw [List.getD_eq_default _ _ hi]
    simp

theorem softplus_nonneg (x : ℝ) : 0 ≤ GNN.softplus x :=
  Real.log_nonneg (by linarith [Real.exp_pos x])

/-- C2: for every parameter set of the graph embedding model (including every
behaviour of the external attention and layer-norm sub-modules), every input
feature matrix — all-zero and extreme-magnitude rows included — and every
edge list, each component of the sigma tensor returned by the forward pass is
non-negative, because the uncertainty head output passes through softplus. -/
theorem sigma_forward_nonneg (m : GNN.ATISGNN) (x : List (List ℝ))
    (edges : List (ℕ × ℕ)) (i j : ℕ) :
    0 ≤ ((GNN.forwardSigma m x edges).getD i []).getD j 0 := by
  apply getD_getD_nonneg
  intro r hr v hv
  unfold GNN.forwardSigma GNN.forward at hr
  simp only [List.mem_map] at hr
  obtain ⟨row, _, hrow⟩ := hr
  rw [← hrow] at hv
  simp only [List.mem_map] at hv
  obtain ⟨w, _, hw⟩ := hv
  rw [← hw]
  exact softplus_nonneg w

/-- C3 (evaluation of the code at the failing input): for every model
parameter set, graph input, target node and feature vector,
`predict_ensemble` does not return an `EnsemblePrediction` record — it
propagates the `TypeError` raised because `predict_gnn` invokes the model
with three tensor arguments while `ATISGNN.forward` accepts two, trained
weights or not. -/
theorem predict_ensemble_always_raises (m : GNN.ATISGNN) (g : Ensemble.GraphData)
    (targetNode : ℕ) (features : List ℝ) :
    Ensemble.predictEnsemble m g targetNode features =
      Except.error "TypeError: forward() takes 3 positional arguments but 4 were given" :=
  rfl

/-- C4 (evaluation of the code at the failing input): calling
`detect_anomaly` on a never-fit detector raises `NotFittedError` instead of
returning an `AnomalyResult`, for every feature vector and every behaviour of
the (unfitted) scikit-learn estimators: `_initialize_default_stats` sets
`is_fitted = True`, which disables the unfitted guard in
`_isolation_forest_score`, so `scaler.transform` runs on an unfitted
`StandardScaler`. -/
theorem detect_anomaly_unfitted_raises (f : List ℚ → ℚ) (tr : List ℚ → List ℚ)
    (features : List ℚ) :
    AnomalyDet.detectAnomaly (AnomalyDet.freshDetector f tr) features =
      Except.error "NotFittedError: This StandardScaler instance is not fitted yet" :=
  rfl

/-- C7: when all four sub-model scores equal exactly 0.5, the weighted
ensemble score is exactly 0.5, the agreement is exactly 1 (standard deviation
zero), and the confidence is exactly 0.6 = 0.6 * 1 + 0.4 * 0, under exact
arithmetic. -/
theorem ensemble_all_half_confidence :
    Ensemble.ensembleScore allHalfPredictions = 1 / 2 ∧
    Ensemble.agreement allHalfPredictions = 1 ∧
    Ensemble.calculateConfidence allHalfPredictions
      (Ensemble.agreement allHalfPredictions) = 3 / 5 := by
  have hstd : Ensemble.pstd (Ensemble.predList allHalfPredictions) = 0 := by
    have hl : Ensemble.predList allHalfPredictions = [(1:ℝ)/2, 1/2, 1/2, 1/2] := rfl
    rw [hl, Ensemble.pstd]
    have hmean : ThreatEngine.listMean [(1:ℝ)/2, 1/2, 1/2, 1/2] = 1/2 := by
      norm_num [ThreatEngine.listMean]
    rw [hmean]
    norm_num
  have hes : Ensemble.ensembleScore allHalfPredictions = 1 / 2 := by
    norm_num [Ensemble.ensembleScore, allHalfPredictions]
  refine ⟨hes, ?_, ?_⟩
  · rw [Ensemble.agreement, hstd]; norm_num
  · rw [Ensemble.calculateConfidence, Ensemble.agreement, hstd, hes]; norm_num

/-- C8: the contextual anomaly sub-score is the maximum matched severity
constant, never the sum: on the scenario-B object both the
high-eccentricity/low-inclination rule (0.9) and the eccentricity-above-0.9
rule (0.7) match and the returned score is exactly 0.9 (not 1.6), and for
every feature vector the score never exceeds 0.9, the largest severity in
the rule table. -/
theorem contextual_score_max_not_sum :
    AnomalyDet.contextualAnomalyScore scenarioBFeatures = 9 / 10 ∧
    ∀ f : List ℚ, AnomalyDet.contextualAnomalyScore f ≤ 9 / 10 := by
  have key : ∀ (l : List ℚ), (∀ x ∈ l, x ≤ 9 / 10) →
      (if l = [] then (0:ℚ) else listMaxD 0 l) ≤ 9 / 10 := by
    intro l hl
    match l with
    | [] => norm_num
    | h :: t =>
        rw [if_neg (List.cons_ne_nil h t)]
        exact listMaxD_le (hl h (by simp)) (fun x hx => hl x (by simp [hx]))
  constructor
  · simp [AnomalyDet.contextualAnomalyScore, scenarioBFeatures, listMaxD]
    norm_num
  · intro f
    simp only [AnomalyDet.contextualAnomalyScore]
    apply key
    intro x hx
    simp only [List.mem_append] at hx
    rcases hx with ((((h | h) | h) | h) | h) | h <;>
      (split at h <;> simp_all <;> norm_num)

theorem snd_zip_abs_nonneg (grad : List ℚ) :
    ∀ x ∈ (Explain.featureNames.zip (grad.map (fun g => |g|))).map Prod.snd,
      0 ≤ x := by
  intro x hx
  simp only [List.mem_map] at hx
  obtain ⟨p, hp, rfl⟩ := hx
  have h2 := (List.of_mem_zip hp).2
  simp only [List.mem_map] at h2
  obtain ⟨g, _, hg⟩ := h2
  rw [← hg]
  exact abs_nonneg g

/-- C9: whenever the total unnormalized importance is nonzero, the
gradient-based feature-importance values returned by
`compute_feature_importance` sum to exactly 100; and when every gradient is
zero, the returned importances are all zero — the division by the total is
skipped, not performed with a zero denominator. -/
theorem feature_importance_sums (grad : List ℚ) :
    (Explain.totalImportance grad ≠ 0 →
      ((Explain.featureImportance grad).map Prod.snd).sum = 100) ∧
    ((∀ g ∈ grad, g = 0) → ∀ p ∈ Explain.featureImportance grad, p.2 = 0) := by
  constructor
  · intro hne
    have hnn : (0:ℚ) ≤ Explain.totalImportance grad :=
      List.sum_nonneg (snd_zip_abs_nonneg grad)
    have hpos : 0 < Explain.totalImportance grad := lt_of_le_of_ne hnn (Ne.symm hne)
    simp only [Explain.featureImportance]
    simp only [Explain.totalImportance] at hpos
    rw [if_pos hpos]
    rw [List.map_map]
    have hfun : (Prod.snd ∘ fun p : String × ℚ =>
        (p.1, p.2 / ((Explain.featureNames.zip (grad.map (fun g => |g|))).map Prod.snd).sum * 100)) =
        fun p : String × ℚ =>
          p.2 * (100 / ((Explain.featureNames.zip (grad.map (fun g => |g|))).map Prod.snd).sum) := by
      funext p
      simp [Function.comp]
      ring
    rw [hfun]
    rw [List.sum_map_mul_right]
    simp only [Explain.totalImportance] at hne ⊢
    field_simp
  · intro hz p hp
    have hall : ∀ x ∈ (Explain.featureNames.zip (grad.map (fun g => |g|))).map Prod.snd,
        x = 0 := by
      intro x hx
      simp only [List.mem_map] at hx
      obtain ⟨q, hq, rfl⟩ := hx
      have h2 := (List.of_mem_zip hq).2
      simp only [List.mem_map] at h2
      obtain ⟨g, hg, hgq⟩ := h2
      rw [← hgq, hz g hg]
      simp
    have htot : ((Explain.featureNames.zip (grad.map (fun g => |g|))).map Prod.snd).sum = 0 :=
      List.sum_eq_zero hall
    simp only [Explain.featureImportance] at hp
    rw [htot] at hp
    norm_num at hp
    exact hall p.2 (List.mem_map_of_mem Prod.snd hp)

/-- Witness for C9: a one-entry gradient of 4 has nonzero total and the
returned percentages sum to 100; an all-zero gradient yields all-zero
importances. -/
theorem feature_importance_sums_witness :
    (Explain.totalImportance [4] ≠ 0 ∧
      ((Explain.featureImportance [4]).map Prod.snd).sum = 100) ∧
    ((∀ g ∈ ([0, 0] : List ℚ), g = 0) ∧
      ∀ p ∈ Explain.featureImportance [0, 0], p.2 = 0) :=
  ⟨⟨by norm_num [Explain.totalImportance, Explain.featureNames],
    (feature_importance_sums [4]).1
      (by norm_num [Explain.totalImportance, Explain.featureNames])⟩,
   ⟨by simp, (feature_importance_sums [0, 0]).2 (by simp)⟩⟩

/-- C10: for every population in which a feature has mean exactly 0 and
positive standard deviation, and every object value with absolute z-score
above 2.5, the anomalous-feature listing of `_identify_anomalous_features`
contains that feature, and the percentage-of-mean comparison value is the
IEEE infinity — the deviation is divided by the zero population mean with no
epsilon guard. -/
theorem anomalous_feature_comparison_inf (name : String)
    (std median value : ℚ) (hstd : 0 < std) (hz : 5 / 2 < |value| / std) :
    (AnomalyDet.identifyAnomalousFeatures
        (singleStatState name ⟨0, std, median⟩) [value]).map
      (fun e => e.comparison) = [FloatVal.inf] := by
  have hvne : value ≠ 0 := by
    intro h
    rw [h] at hz
    norm_num at hz
  have habs : |(value - 0) / std| = |value| / std := by
    rw [sub_zero, abs_div, abs_of_pos hstd]
  simp only [AnomalyDet.identifyAnomalousFeatures, singleStatState,
    AnomalyDet.sortByZDesc, List.enum, List.enumFrom, List.filterMap,
    List.find?, List.getD, List.get?, List.getElem?_cons_zero,
    Option.getD_some, decide_True]
  rw [if_pos hstd, habs, if_pos hz]
  rcases lt_or_gt_of_ne hvne with hneg | hpos
  · rw [if_neg (by simpa using not_lt.mpr hneg.le)]
    simp [AnomalyDet.insertByZDesc, floatMul100, floatDiv, hneg]
  · rw [if_pos (by simpa using hpos)]
    simp [AnomalyDet.insertByZDesc, floatMul100, floatDiv, hpos,
      show value - 0 > 0 by linarith]

/-- Witness for C10: population mean 0, std 1, object value 3 (z-score 3):
the listed comparison value is infinite. -/
theorem anomalous_feature_comparison_inf_witness :
    (0:ℚ) < 1 ∧ (5:ℚ) / 2 < |3| / 1 ∧
    (AnomalyDet.identifyAnomalousFeatures
        (singleStatState "inclination" ⟨0, 1, 0⟩) [3]).map
      (fun e => e.comparison) = [FloatVal.inf] :=
  ⟨by norm_num, by norm_num,
   anomalous_feature_comparison_inf "inclination" 1 0 3 (by norm_num) (by norm_num)⟩

/-- Counterexample for C6: with identical other features, the proximity-rule
scores of the 0.5 AU and 2.0 AU objects are equal (both perihelion distances
fall beyond the last band of the step function), so the three scores are not
strictly decreasing. -/
theorem proximity_rule_not_strictly_decreasing :
    Ensemble.predictRandomForest (scenarioAFeatures (1/2)) =
      Ensemble.predictRandomForest (scenarioAFeatures 2) ∧
    ¬(Ensemble.predictRandomForest (scenarioAFeatures (1/100)) >
        Ensemble.predictRandomForest (scenarioAFeatures (1/2)) ∧
      Ensemble.predictRandomForest (scenarioAFeatures (1/2)) >
        Ensemble.predictRandomForest (scenarioAFeatures 2)) := by
  have h : Ensemble.predictRandomForest (scenarioAFeatures (1/2)) =
      Ensemble.predictRandomForest (scenarioAFeatures 2) := by
    simp only [Ensemble.predictRandomForest, scenarioAFeatures, List.getD,
      List.get?, Option.getD_some]
    norm_num
  exact ⟨h, fun hc => absurd (h ▸ hc.2) (lt_irrefl _)⟩

/-- C6 as amended: the proximity-rule score of the 0.01 AU object is strictly
greater than those of the 0.5 AU and 2.0 AU objects, which are equal to one
another — the perihelion step function has no band beyond 0.2 AU, so the
spec's strictly-decreasing ordering only holds for the first step.  This
holds for every choice of the identical remaining features. -/
theorem proximity_rule_first_band_dominates (e a i lon w ma aph per mm H d : ℝ) :
    Ensemble.predictRandomForest [e, a, i, lon, w, ma, 1/100, aph, per, mm, H, d] >
      Ensemble.predictRandomForest [e, a, i, lon, w, ma, 1/2, aph, per, mm, H, d] ∧
    Ensemble.predictRandomForest [e, a, i, lon, w, ma, 1/2, aph, per, mm, H, d] =
      Ensemble.predictRandomForest [e, a, i, lon, w, ma, 2, aph, per, mm, H, d] := by
  simp only [Ensemble.predictRandomForest, List.getD, List.get?, Option.getD_some]
  norm_num
  split_ifs <;> norm_num

/-- Counterexample for C5: in the invocation `run_threat_engine` performs
(`compute_threat_scores(mu, sigma, graph)`, i.e. `raw_moid = None`), the
proximity-risk term is computed from the standardized graph column 10 with a
`1e-3` guard and differs from the spec formula applied to the physical MOID
values of the same nodes — so the proximity term is not always the min-max
normalization of `1/(|MOID in AU| + eps)`. -/
theorem proximity_risk_fallback_not_physical :
    ThreatEngine.proximityRisk cexGraphX none ≠
      ThreatEngine.proximityRiskSpec cexMoid := by
  intro h
  have h0 := congrArg (fun l => l.headD 0) h
  simp only [ThreatEngine.proximityRisk, ThreatEngine.proximityRiskSpec,
    ThreatEngine.normalize, ThreatEngine.col, ThreatEngine.eps8, cexGraphX,
    cexMoid, List.map, List.getD, List.get?, Option.getD, listMinD, listMaxD,
    List.foldl, List.headD] at h0
  rw [abs_zero, abs_one, abs_of_pos (by norm_num : (0:ℝ) < 1/10),
    abs_of_pos (by norm_num : (0:ℝ) < 2/10)] at h0
  norm_num [min_def, max_def] at h0

/-- C5 as amended: the proximity-risk term follows the spec formula (min-max
normalization of `1/(|MOID in AU| + 1e-4)` over the physical miss distances)
exactly when raw MOID values are supplied to the combiner; when they are not
— as in `run_threat_engine` — it falls back to the standardized graph feature
column 10 with a `1e-3` guard. -/
theorem proximity_risk_branch_behaviour (gX : List (List ℝ)) (m : List ℝ) :
    ThreatEngine.proximityRisk gX (some m) = ThreatEngine.proximityRiskSpec m ∧
    ThreatEngine.proximityRisk gX none =
      ThreatEngine.normalize
        ((ThreatEngine.col 10 gX).map fun v => 1 / (|v| + 1 / 1000)) :=
  ⟨rfl, rfl⟩

theorem listMinD_le_listMaxD {xs : List ℝ} (hne : xs ≠ []) :
    listMinD 0 xs ≤ listMaxD 0 xs := by
  cases xs with
  | nil => exact absurd rfl hne
  | cons h t =>
      exact le_trans (foldl_min_le_init t h) (le_foldl_max_init t h)

theorem eps8_pos : (0:ℝ) < ThreatEngine.eps8 := by
  norm_num [ThreatEngine.eps8]

theorem normalize_getD_bounds (xs : List ℝ) (i : ℕ) :
    0 ≤ (ThreatEngine.normalize xs).getD i 0 ∧
      (ThreatEngine.normalize xs).getD i 0 ≤ 1 := by
  by_cases hne : xs = []
  · subst hne
    simp [ThreatEngine.normalize]
  · rcases lt_or_ge i xs.length with hi | hi
    · have hlen : i < (ThreatEngine.normalize xs).length := by
        simpa [ThreatEngine.normalize] using hi
      rw [List.getD_eq_getElem _ _ hlen]
      have hval : (ThreatEngine.normalize xs)[i] =
          (xs.get ⟨i, hi⟩ - listMinD 0 xs) /
            (listMaxD 0 xs - listMinD 0 xs + ThreatEngine.eps8) := by
        simp [ThreatEngine.normalize]
      rw [hval]
      have hmem : xs.get ⟨i, hi⟩ ∈ xs := List.get_mem xs i hi
      have h1 : listMinD 0 xs ≤ xs.get ⟨i, hi⟩ := listMinD_le hmem
      have h2 : xs.get ⟨i, hi⟩ ≤ listMaxD 0 xs := le_listMaxD hmem
      have hD : 0 < listMaxD 0 xs - listMinD 0 xs + ThreatEngine.eps8 := by
        have := eps8_pos
        linarith
      constructor
      · exact div_nonneg (by linarith) hD.le
      · rw [div_le_one hD]
        have := eps8_pos
        linarith
    · rw [List.getD_eq_default]
      · norm_num
      · simpa [ThreatEngine.normalize] using hi

theorem foldl_max_map_affine (f : ℝ → ℝ)
    (hf : ∀ a b, f (max a b) = max (f a) (f b)) :
    ∀ (t : List ℝ) (a : ℝ), (t.map f).foldl max (f a) = f (t.foldl max a) := by
  intro t
  induction t with
  | nil => intro a; simp
  | cons h t ih =>
      intro a
      simp only [List.map_cons, List.foldl_cons]
      rw [← hf a h]
      exact ih (max a h)

theorem listMaxD_map_affine (f : ℝ → ℝ)
    (hf : ∀ a b, f (max a b) = max (f a) (f b)) (xs : List ℝ) (hne : xs ≠ []) :
    listMaxD 0 (xs.map f) = f (listMaxD 0 xs) := by
  cases xs with
  | nil => exact absurd rfl hne
  | cons h t =>
      simp only [List.map_cons, listMaxD]
      exact foldl_max_map_affine f hf t h

theorem listMaxD_normalize (xs : List ℝ) (hne : xs ≠ []) :
    listMaxD 0 (ThreatEngine.normalize xs) =
      (listMaxD 0 xs - listMinD 0 xs) /
        (listMaxD 0 xs - listMinD 0 xs + ThreatEngine.eps8) := by
  have hD : 0 < listMaxD 0 xs - listMinD 0 xs + ThreatEngine.eps8 := by
    have h1 := listMinD_le_listMaxD hne
    have h2 := eps8_pos
    linarith
  unfold ThreatEngine.normalize
  exact listMaxD_map_affine _
    (fun a b => by rw [max_div_div_right hD.le, max_sub_sub_right]) xs hne

/-- C1: every component of the threat-score vector returned by
`compute_threat_scores` lies in `[0, 1]`, for all embedding outputs, graph
matrices and raw parameter vectors; and when the population is non-degenerate
(the pre-renormalization combined scores are not all equal, i.e. their min is
strictly below their max), the final min-max re-normalization puts the
maximum returned score at `d / (d + 1e-8)` for `d` the combined-score spread,
hence within `1e-8 / d` of 1. -/
theorem threat_scores_unit_range_and_top (mu sigma gX : List (List ℝ))
    (rawMoid rawH : Option (List ℝ)) :
    (∀ i : ℕ,
      0 ≤ (ThreatEngine.computeThreatScores mu sigma gX rawMoid rawH).getD i 0 ∧
      (ThreatEngine.computeThreatScores mu sigma gX rawMoid rawH).getD i 0 ≤ 1) ∧
    (listMinD 0 (ThreatEngine.combinedScores mu sigma gX rawMoid rawH) <
        listMaxD 0 (ThreatEngine.combinedScores mu sigma gX rawMoid rawH) →
      listMaxD 0 (ThreatEngine.computeThreatScores mu sigma gX rawMoid rawH) =
        (listMaxD 0 (ThreatEngine.combinedScores mu sigma gX rawMoid rawH) -
            listMinD 0 (ThreatEngine.combinedScores mu sigma gX rawMoid rawH)) /
          (listMaxD 0 (ThreatEngine.combinedScores mu sigma gX rawMoid rawH) -
            listMinD 0 (ThreatEngine.combinedScores mu sigma gX rawMoid rawH) +
            ThreatEngine.eps8) ∧
      1 - listMaxD 0 (ThreatEngine.computeThreatScores mu sigma gX rawMoid rawH) ≤
        ThreatEngine.eps8 /
          (listMaxD 0 (ThreatEngine.combinedScores mu sigma gX rawMoid rawH) -
            listMinD 0 (ThreatEngine.combinedScores mu sigma gX rawMoid rawH))) := by
  constructor
  · intro i
    exact normalize_getD_bounds (ThreatEngine.combinedScores mu sigma gX rawMoid rawH) i
  · intro hlt
    have hne : ThreatEngine.combinedScores mu sigma gX rawMoid rawH ≠ [] := by
      intro h
      rw [h] at hlt
      simp [listMinD, listMaxD] at hlt
    have hmax := listMaxD_normalize
      (ThreatEngine.combinedScores mu sigma gX rawMoid rawH) hne
    have hd : 0 < listMaxD 0 (ThreatEngine.combinedScores mu sigma gX rawMoid rawH) -
        listMinD 0 (ThreatEngine.combinedScores mu sigma gX rawMoid rawH) :=
      sub_pos.mpr hlt
    have heps := eps8_pos
    constructor
    · unfold ThreatEngine.computeThreatScores
      exact hmax
    · unfold ThreatEngine.computeThreatScores
      rw [hmax]
      have key : ∀ d : ℝ, 0 < d →
          1 - d / (d + ThreatEngine.eps8) ≤ ThreatEngine.eps8 / d := by
        intro d hdp
        have hde : 0 < d + ThreatEngine.eps8 := by linarith
        have h1 : 1 - d / (d + ThreatEngine.eps8) =
            ThreatEngine.eps8 / (d + ThreatEngine.eps8) := by
          field_simp
        rw [h1]
        gcongr
        linarith
      exact key _ hd

/-- Witness for C1: two nodes with embedding rows `[0]`, sigma rows `[0]` and
`[2]`, equal raw MOID and equal raw magnitude — the combined scores differ, so
the non-degeneracy hypothesis holds and the max-score conclusion follows. -/
theorem threat_scores_unit_range_and_top_witness :
    listMinD 0 (ThreatEngine.combinedScores [[0], [0]] [[0], [2]] []
        (some [1, 1]) (some [0, 0])) <
      listMaxD 0 (ThreatEngine.combinedScores [[0], [0]] [[0], [2]] []
        (some [1, 1]) (some [0, 0])) ∧
    (listMaxD 0 (ThreatEngine.computeThreatScores [[0], [0]] [[0], [2]] []
        (some [1, 1]) (some [0, 0])) =
      (listMaxD 0 (ThreatEngine.combinedScores [[0], [0]] [[0], [2]] []
          (some [1, 1]) (some [0, 0])) -
        listMinD 0 (ThreatEngine.combinedScores [[0], [0]] [[0], [2]] []
          (some [1, 1]) (some [0, 0]))) /
        (listMaxD 0 (ThreatEngine.combinedScores [[0], [0]] [[0], [2]] []
          (some [1, 1]) (some [0, 0])) -
          listMinD 0 (ThreatEngine.combinedScores [[0], [0]] [[0], [2]] []
            (some [1, 1]) (some [0, 0])) + ThreatEngine.eps8) ∧
      1 - listMaxD 0 (ThreatEngine.computeThreatScores [[0], [0]] [[0], [2]] []
          (some [1, 1]) (some [0, 0])) ≤
        ThreatEngine.eps8 /
          (listMaxD 0 (ThreatEngine.combinedScores [[0], [0]] [[0], [2]] []
            (some [1, 1]) (some [0, 0])) -
            listMinD 0 (ThreatEngine.combinedScores [[0], [0]] [[0], [2]] []
              (some [1, 1]) (some [0, 0])))) := by
  have hlt : listMinD 0 (ThreatEngine.combinedScores [[0], [0]] [[0], [2]] []
      (some [1, 1]) (some [0, 0])) <
      listMaxD 0 (ThreatEngine.combinedScores [[0], [0]] [[0], [2]] []
        (some [1, 1]) (some [0, 0])) := by
    simp only [ThreatEngine.combinedScores, ThreatEngine.normalize,
      ThreatEngine.l2norm, ThreatEngine.listMean, ThreatEngine.proximityRisk,
      ThreatEngine.energyProxy, ThreatEngine.eps8, List.map, List.zipWith,
      listMinD, listMaxD, List.foldl, List.sum_cons, List.sum_nil,
      List.length_cons, List.length_nil]
    norm_num [min_def, max_def]
  exact ⟨hlt, (threat_scores_unit_range_and_top [[0], [0]] [[0], [2]] []
    (some [1, 1]) (some [0, 0])).2 hlt⟩
